import Mathlib

/-!
Verification of the missing-person-finding CCTV system: a shallow embedding
of the stream-ingestion manager (`models/cctv_manager.py`), the face matcher
(`models/face_matcher.py`) and the detection pipeline
(`routes/cctv_routes.py`), with theorems settling the specification claims.

Modelling conventions:
* Python floats are modelled as rationals (`ℚ`).
* Opaque OpenCV / numpy operations (frame decoding, resizing, image
  rendering, JPEG encoding, the cosine-similarity arithmetic) are passed in
  as explicit function parameters; the control flow around them is
  translated from the source.  A numeric computation that would raise is
  modelled by the parameter returning `none` (the `try/except` in the source
  becomes a `match` on that `Option`).
* A frame is an opaque token (`Nat`); encoded bytes are `List Nat`.
* Python dicts that the claims must enumerate are association lists in
  insertion order; `Queue(maxsize=1)` is an `Option Frame`.
-/

namespace MissingPerson

/-- An opaque video frame (the model never inspects pixel data). -/
abbrev Frame := Nat

/-- Encoded image bytes (`buffer.tobytes()`). -/
abbrev Bytes := List Nat

/-- The value stored under the `insightface` key of an embedding dict:
either an actual numeric vector, or a malformed value on which the numpy
arithmetic in `compare_embeddings` would raise (caught by its `except`). -/
inductive EmbVal where
  | vec (v : List ℚ)
  | malformed
deriving DecidableEq, Repr

/-- An embedding dict as produced by `extract_embeddings` and stored in the
person registry.  Only the `insightface` key is read by
`compare_embeddings`; `none` models a dict lacking that key
(the `NO_INSIGHTFACE_EMBEDDINGS` branch). -/
structure EmbeddingData where
  insightface : Option EmbVal
deriving DecidableEq, Repr

/-- Confidence banding of a cosine-similarity value, translated from
`face_matcher.py` lines 88–97 (thresholds 0.75 / 0.65 / 0.55 / 0.45,
each comparison strict `>`). -/
def confidenceBand (s : ℚ) : String :=
  if s > 3/4 then "VERY_HIGH"
  else if s > 13/20 then "HIGH"
  else if s > 11/20 then "MEDIUM"
  else if s > 9/20 then "LOW"
  else "VERY_LOW"

/-- `AdvancedFaceMatcher.compare_embeddings`, translated from
`face_matcher.py` lines 75–105.  `cosSim` is the opaque numpy cosine
computation (`np.dot / (norm * norm)`); it returns `none` when that
arithmetic would raise (e.g. shape mismatch), which the source's
`except` turns into `(0.0, "COMPARISON_ERROR")`. -/
def compare_embeddings (cosSim : List ℚ → List ℚ → Option ℚ)
    (e1 e2 : Option EmbeddingData) : ℚ × String :=
  match e1, e2 with
  | none, _ => (0, "INVALID_EMBEDDINGS")
  | _, none => (0, "INVALID_EMBEDDINGS")
  | some d1, some d2 =>
    match d1.insightface, d2.insightface with
    | some v1, some v2 =>
      match v1, v2 with
      | EmbVal.vec w1, EmbVal.vec w2 =>
        match cosSim w1 w2 with
        | some s => (s, confidenceBand s)
        | none => (0, "COMPARISON_ERROR")
      | _, _ => (0, "COMPARISON_ERROR")
    | _, _ => (0, "NO_INSIGHTFACE_EMBEDDINGS")

/-- An input pair on which `compare_embeddings` actually reaches the cosine
computation and obtains a value: both arguments present, both carrying an
`insightface` vector, and the arithmetic succeeding.  Its negation is
exactly the "missing or malformed" condition of the error-handling claims. -/
def validInput (cosSim : List ℚ → List ℚ → Option ℚ)
    (e1 e2 : Option EmbeddingData) : Bool :=
  match e1, e2 with
  | some d1, some d2 =>
    match d1.insightface, d2.insightface with
    | some (EmbVal.vec w1), some (EmbVal.vec w2) => (cosSim w1 w2).isSome
    | _, _ => false
  | _, _ => false

/-- The five similarity bands of the step function. -/
def similarityBands : List String :=
  ["VERY_HIGH", "HIGH", "MEDIUM", "LOW", "VERY_LOW"]

/-- The three bands reserved for invalid input. -/
def errorBands : List String :=
  ["INVALID_EMBEDDINGS", "NO_INSIGHTFACE_EMBEDDINGS", "COMPARISON_ERROR"]

theorem confidenceBand_mem (s : ℚ) : confidenceBand s ∈ similarityBands := by
  unfold confidenceBand similarityBands
  split_ifs <;> simp

theorem confidenceBand_spec (s : ℚ) :
    (confidenceBand s = "VERY_HIGH" ↔ 3/4 < s) ∧
    (confidenceBand s = "HIGH" ↔ 13/20 < s ∧ s ≤ 3/4) ∧
    (confidenceBand s = "MEDIUM" ↔ 11/20 < s ∧ s ≤ 13/20) ∧
    (confidenceBand s = "LOW" ↔ 9/20 < s ∧ s ≤ 11/20) ∧
    (confidenceBand s = "VERY_LOW" ↔ s ≤ 9/20) := by
  unfold confidenceBand
  split_ifs with h1 h2 h3 h4
  · exact ⟨iff_of_true rfl h1,
      iff_of_false (by decide) (fun h => by linarith [h.2]),
      iff_of_false (by decide) (fun h => by linarith [h.2]),
      iff_of_false (by decide) (fun h => by linarith [h.2]),
      iff_of_false (by decide) (fun h => by linarith)⟩
  · exact ⟨iff_of_false (by decide) h1,
      iff_of_true rfl ⟨h2, not_lt.1 h1⟩,
      iff_of_false (by decide) (fun h => by linarith [h.2]),
      iff_of_false (by decide) (fun h => by linarith [h.2]),
      iff_of_false (by decide) (fun h => by linarith)⟩
  · exact ⟨iff_of_false (by decide) h1,
      iff_of_false (by decide) (fun h => h2 h.1),
      iff_of_true rfl ⟨h3, not_lt.1 h2⟩,
      iff_of_false (by decide) (fun h => by linarith [h.2]),
      iff_of_false (by decide) (fun h => by linarith)⟩
  · exact ⟨iff_of_false (by decide) h1,
      iff_of_false (by decide) (fun h => h2 h.1),
      iff_of_false (by decide) (fun h => h3 h.1),
      iff_of_true rfl ⟨h4, not_lt.1 h3⟩,
      iff_of_false (by decide) (fun h => by linarith)⟩
  · exact ⟨iff_of_false (by decide) h1,
      iff_of_false (by decide) (fun h => h2 h.1),
      iff_of_false (by decide) (fun h => h3 h.1),
      iff_of_false (by decide) (fun h => h4 h.1),
      iff_of_true rfl (not_lt.1 h4)⟩

/-- C2: whenever the cosine similarity `s` of two embeddings is actually
computed, `compare_embeddings` returns `s` together with the band
`VERY_HIGH` iff `s > 0.75`, `HIGH` iff `0.65 < s ≤ 0.75`, `MEDIUM` iff
`0.55 < s ≤ 0.65`, `LOW` iff `0.45 < s ≤ 0.55`, and `VERY_LOW` iff
`s ≤ 0.45`, including at the exact boundary values. -/
theorem C2_confidence_banding (cosSim : List ℚ → List ℚ → Option ℚ)
    (w1 w2 : List ℚ) (s : ℚ) (hcos : cosSim w1 w2 = some s) :
    compare_embeddings cosSim (some ⟨some (EmbVal.vec w1)⟩)
        (some ⟨some (EmbVal.vec w2)⟩) = (s, confidenceBand s) ∧
    (confidenceBand s = "VERY_HIGH" ↔ 3/4 < s) ∧
    (confidenceBand s = "HIGH" ↔ 13/20 < s ∧ s ≤ 3/4) ∧
    (confidenceBand s = "MEDIUM" ↔ 11/20 < s ∧ s ≤ 13/20) ∧
    (confidenceBand s = "LOW" ↔ 9/20 < s ∧ s ≤ 11/20) ∧
    (confidenceBand s = "VERY_LOW" ↔ s ≤ 9/20) := by
  refine ⟨?_, confidenceBand_spec s⟩
  have h0 : compare_embeddings cosSim (some ⟨some (EmbVal.vec w1)⟩)
      (some ⟨some (EmbVal.vec w2)⟩)
      = match cosSim w1 w2 with
        | some t => (t, confidenceBand t)
        | none => (0, "COMPARISON_ERROR") := rfl
  rw [h0, hcos]

theorem C2_confidence_banding_witness :
    (fun _ _ => some (7/10 : ℚ)) [1] [1] = some (7/10 : ℚ) ∧
    (compare_embeddings (fun _ _ => some (7/10 : ℚ))
        (some ⟨some (EmbVal.vec [1])⟩) (some ⟨some (EmbVal.vec [1])⟩)
      = (7/10, confidenceBand (7/10)) ∧
    (confidenceBand (7/10) = "VERY_HIGH" ↔ 3/4 < (7/10 : ℚ)) ∧
    (confidenceBand (7/10) = "HIGH" ↔ 13/20 < (7/10 : ℚ) ∧ (7/10 : ℚ) ≤ 3/4) ∧
    (confidenceBand (7/10) = "MEDIUM" ↔ 11/20 < (7/10 : ℚ) ∧ (7/10 : ℚ) ≤ 13/20) ∧
    (confidenceBand (7/10) = "LOW" ↔ 9/20 < (7/10 : ℚ) ∧ (7/10 : ℚ) ≤ 11/20) ∧
    (confidenceBand (7/10) = "VERY_LOW" ↔ (7/10 : ℚ) ≤ 9/20)) :=
  ⟨rfl, C2_confidence_banding (fun _ _ => some (7/10 : ℚ)) [1] [1] (7/10) rfl⟩

/-- C3: whenever either embedding is missing (`None`) or malformed (lacking
the `insightface` vector, or making the arithmetic raise),
`compare_embeddings` returns similarity `0.0` with one of three dedicated
error bands, none of which is ever produced by the similarity banding; the
function is total, so no exception escapes to the caller. -/
theorem C3_invalid_input_degrades (cosSim : List ℚ → List ℚ → Option ℚ)
    (e1 e2 : Option EmbeddingData)
    (hbad : validInput cosSim e1 e2 = false) :
    (compare_embeddings cosSim e1 e2).1 = 0 ∧
    (compare_embeddings cosSim e1 e2).2 ∈ errorBands ∧
    ∀ s : ℚ, confidenceBand s ≠ (compare_embeddings cosSim e1 e2).2 := by
  have hdistinct : ∀ b ∈ errorBands, ∀ s : ℚ, confidenceBand s ≠ b := by
    intro b hb s
    have hmem := confidenceBand_mem s
    unfold similarityBands at hmem
    unfold errorBands at hb
    simp at hmem hb
    rcases hmem with h | h | h | h | h <;> rw [h] <;>
      rcases hb with h2 | h2 | h2 <;> rw [h2] <;> decide
  rcases e1 with _ | ⟨_ | (w1 | _)⟩ <;> rcases e2 with _ | ⟨_ | (w2 | _)⟩ <;>
    try first
      | exact ⟨rfl, (by decide : ("INVALID_EMBEDDINGS" : String) ∈ errorBands),
          hdistinct "INVALID_EMBEDDINGS" (by decide)⟩
      | exact ⟨rfl,
          (by decide : ("NO_INSIGHTFACE_EMBEDDINGS" : String) ∈ errorBands),
          hdistinct "NO_INSIGHTFACE_EMBEDDINGS" (by decide)⟩
      | exact ⟨rfl, (by decide : ("COMPARISON_ERROR" : String) ∈ errorBands),
          hdistinct "COMPARISON_ERROR" (by decide)⟩
  rcases hc : cosSim w1 w2 with _ | s
  · have hres : compare_embeddings cosSim (some ⟨some (EmbVal.vec w1)⟩)
        (some ⟨some (EmbVal.vec w2)⟩)
        = match cosSim w1 w2 with
          | some t => (t, confidenceBand t)
          | none => (0, "COMPARISON_ERROR") := rfl
    rw [hres, hc]
    exact ⟨rfl, by decide, hdistinct _ (by decide)⟩
  · exfalso
    have hv : validInput cosSim (some ⟨some (EmbVal.vec w1)⟩)
        (some ⟨some (EmbVal.vec w2)⟩) = (cosSim w1 w2).isSome := rfl
    rw [hv, hc] at hbad
    simp at hbad

theorem C3_invalid_input_degrades_witness :
    validInput (fun _ _ => some 1) none (some ⟨some (EmbVal.vec [1])⟩) = false ∧
    ((compare_embeddings (fun _ _ => some 1) none
        (some ⟨some (EmbVal.vec [1])⟩)).1 = 0 ∧
      (compare_embeddings (fun _ _ => some 1) none
        (some ⟨some (EmbVal.vec [1])⟩)).2 ∈ errorBands ∧
      ∀ s : ℚ, confidenceBand s ≠ (compare_embeddings (fun _ _ => some 1) none
        (some ⟨some (EmbVal.vec [1])⟩)).2) :=
  ⟨rfl, C3_invalid_input_degrades (fun _ _ => some 1) none
    (some ⟨some (EmbVal.vec [1])⟩) rfl⟩

/-! ## CCTV manager (`models/cctv_manager.py`)

The manager's Python dicts (`active_streams`, `frame_queues`,
`stream_threads`) become association lists in insertion order; thread
objects are reduced to their observable `is_alive()` flag; timestamps
(`datetime.now()`) are supplied as a `Nat` parameter `now`.  File
persistence (`save_streams_to_db`) writes outside the modelled state and is
dropped.  OpenCV operations are collected in a `CVOps` parameter. -/

/-- First-match lookup in an association list (Python dict read). -/
def lookupA {α : Type} : List (String × α) → String → Option α
  | [], _ => none
  | (k, v) :: rest, n => if k = n then some v else lookupA rest n

/-- Association-list write (Python dict assignment): overwrite the first
binding of the key, or append a new binding. -/
def updateA {α : Type} : List (String × α) → String → α → List (String × α)
  | [], n, v => [(n, v)]
  | (k, w) :: rest, n, v =>
    if k = n then (k, v) :: rest else (k, w) :: updateA rest n v

theorem lookupA_updateA_self {α : Type} (l : List (String × α))
    (n : String) (v : α) : lookupA (updateA l n v) n = some v := by
  induction l with
  | nil => simp [updateA, lookupA]
  | cons hd tl ih =>
    obtain ⟨k, w⟩ := hd
    by_cases hk : k = n
    · simp [updateA, lookupA, hk]
    · simp [updateA, lookupA, hk, ih]

theorem lookupA_updateA_ne {α : Type} (l : List (String × α))
    (n m : String) (v : α) (hnm : m ≠ n) :
    lookupA (updateA l n v) m = lookupA l m := by
  induction l with
  | nil =>
    have h1 : ¬(n = m) := fun h => hnm h.symm
    simp [updateA, lookupA, h1]
  | cons hd tl ih =>
    obtain ⟨k, w⟩ := hd
    by_cases hk : k = n
    · subst hk
      have h1 : ¬(k = m) := fun h => hnm h.symm
      simp [updateA, lookupA, h1]
    · simp [updateA, lookupA, hk, ih]

/-- The per-stream dict entry created by `add_stream`
(`cctv_manager.py` lines 95–103). -/
structure StreamInfo where
  url : String
  location : String
  active : Bool
  last_frame : Option Frame
  last_update : Option Nat
  added_date : Nat
  error_count : Nat
deriving DecidableEq, Repr

/-- The mutable state of `CCTVManager`: the three dicts plus the shared
`running` flag. -/
structure Manager where
  active_streams : List (String × StreamInfo)
  frame_queues : List (String × Option Frame)
  stream_threads : List (String × Bool)
  running : Bool
deriving DecidableEq, Repr

/-- Opaque OpenCV operations used by the manager: frame resizing, the
rendered demo frame, the rendered "Initializing" placeholder, and JPEG
encoding (`cv2.imencode`, returning a success flag and the buffer). -/
structure CVOps where
  resize : Frame → Frame
  demoFrame : String → Nat → Frame
  placeholderImage : Nat → Frame
  encode : Frame → Bool × Bytes

/-- `start_stream_monitoring` (`cctv_manager.py` lines 178–199): fails when
the name is unregistered; returns success without touching anything when a
live thread is already recorded for the name; otherwise sets `running`,
starts a thread and records it. -/
def start_stream_monitoring (m : Manager) (name : String) : Bool × Manager :=
  if (lookupA m.active_streams name).isNone then (false, m)
  else if lookupA m.stream_threads name = some true then (true, m)
  else (true, { m with running := true,
                       stream_threads := updateA m.stream_threads name true })

/-- Result of `add_stream`: the returned boolean, whether
`test_rtsp_connection` was invoked, and the state afterwards. -/
structure AddResult where
  ok : Bool
  probed : Bool
  state : Manager
deriving DecidableEq, Repr

/-- `add_stream` (`cctv_manager.py` lines 82–115).  `probe` is the opaque
`test_rtsp_connection`; it is consulted only when the URI is neither the
local webcam `"0"` nor `"demo"` (short-circuit on line 91).  On acceptance
the stream entry is registered with `error_count = 0`, a fresh
single-slot queue is created, and monitoring starts unless deferred. -/
def add_stream (probe : String → Bool) (now : Nat) (m : Manager)
    (name url location : String) (startMon : Bool) : AddResult :=
  if (lookupA m.active_streams name).isSome then ⟨false, false, m⟩
  else if url = "0" ∨ url = "demo" then
    ⟨true, false, registerStream now m name url location startMon⟩
  else if probe url then
    ⟨true, true, registerStream now m name url location startMon⟩
  else ⟨false, true, m⟩
where
  registerStream (now : Nat) (m : Manager)
      (name url location : String) (startMon : Bool) : Manager :=
    let m1 : Manager :=
      { m with
        active_streams := updateA m.active_streams name
          { url := url, location := location, active := true,
            last_frame := none, last_update := none,
            added_date := now, error_count := 0 }
        frame_queues := updateA m.frame_queues name none }
    if startMon then (start_stream_monitoring m1 name).2 else m1

/-- One entry of the `get_stream_status` snapshot
(`cctv_manager.py` lines 308–319). -/
structure StatusEntry where
  location : String
  active : Bool
  last_update : Option Nat
  error_count : Nat
  url : String
deriving DecidableEq, Repr

/-- The status projection of one stream entry. -/
def statusOf (i : StreamInfo) : StatusEntry :=
  { location := i.location, active := i.active, last_update := i.last_update,
    error_count := i.error_count, url := i.url }

/-- `get_stream_status`: a read-only projection of `active_streams`. -/
def get_stream_status (m : Manager) : List (String × StatusEntry) :=
  m.active_streams.map (fun p => (p.1, statusOf p.2))

/-- The outcome of one `cap.read()` call inside the monitor loop. -/
inductive ReadResult where
  | success (f : Frame)
  | failure
deriving DecidableEq, Repr

/-- One iteration of the `_monitor_stream` loop body
(`cctv_manager.py` lines 218–258), for a stream whose capture handle is
available.  The loop runs only while `running && active`; for the webcam
URI `"0"` a failed read merely logs, sleeps and continues (no field of the
stream entry is touched), while a successful read resizes the frame and
overwrites `last_frame`, `last_update` and the single-slot queue; for any
other URI a demo frame is rendered and written the same way.  Returns the
stream entry and queue slot after the iteration. -/
def monitorStep (cv : CVOps) (running : Bool) (name : String)
    (s : StreamInfo) (q : Option Frame) (read : ReadResult) (now : Nat) :
    StreamInfo × Option Frame :=
  if running && s.active then
    if s.url = "0" then
      match read with
      | ReadResult.failure => (s, q)
      | ReadResult.success f =>
        let f2 := cv.resize f
        ({ s with last_frame := some f2, last_update := some now }, some f2)
    else
      let d := cv.demoFrame name now
      ({ s with last_frame := some d, last_update := some now }, some d)
  else (s, q)

/-- The monitor loop iterated over a trace of inputs, each input giving the
`running` flag observed at that iteration, the read outcome and the time. -/
def monitorRun (cv : CVOps) (name : String) :
    StreamInfo × Option Frame → List (Bool × ReadResult × Nat) →
    StreamInfo × Option Frame
  | sq, [] => sq
  | (s, q), (r, rd, t) :: rest =>
    monitorRun cv name (monitorStep cv r name s q rd t) rest

/-- Encoding of a real frame at the end of `get_current_frame`
(lines 294–300): `None` when `imencode` reports failure. -/
def encodeFrame (cv : CVOps) (f : Frame) : Option Bytes :=
  if (cv.encode f).1 then some (cv.encode f).2 else none

/-- The fallback tail of `get_current_frame` (lines 284–300) once the
frame variable is settled: a missing frame yields the encoded placeholder
image (whose `imencode` success flag the source ignores on line 291–292),
a present frame is encoded via `encodeFrame`. -/
def fallbackFrame (cv : CVOps) (now : Nat) (m : Manager) :
    Option Frame → Option Bytes × Manager
  | none => (some (cv.encode (cv.placeholderImage now)).2, m)
  | some f => (encodeFrame cv f, m)

/-- The body of `get_current_frame` for a registered stream
(lines 272–300), keyed on the stream's single-slot queue: a queued frame
is consumed (caching it in the entry's `last_frame`) and encoded;
otherwise the cached `last_frame` is used via `fallbackFrame`. -/
def getFrameRegistered (cv : CVOps) (now : Nat) (m : Manager)
    (name : String) (info : StreamInfo) :
    Option (Option Frame) → Option Bytes × Manager
  | some (some f) =>
    (encodeFrame cv f,
      { m with
        active_streams := updateA m.active_streams name
          { info with last_frame := some f }
        frame_queues := updateA m.frame_queues name none })
  | _ => fallbackFrame cv now m info.last_frame

/-- `get_current_frame` (`cctv_manager.py` lines 265–304): unknown stream →
`None`; otherwise delegate to `getFrameRegistered`. -/
def get_current_frame (cv : CVOps) (now : Nat) (m : Manager)
    (name : String) : Option Bytes × Manager :=
  match lookupA m.active_streams name with
  | none => (none, m)
  | some info => getFrameRegistered cv now m name info
      (lookupA m.frame_queues name)

/-! ## Concrete fixtures used by witnesses and counterexamples. -/

/-- A concrete instantiation of the opaque OpenCV operations. -/
def cvA : CVOps :=
  { resize := id, demoFrame := fun _ _ => 0, placeholderImage := fun _ => 0,
    encode := fun f => (true, [f]) }

/-- A freshly registered webcam stream entry. -/
def infoA : StreamInfo :=
  { url := "0", location := "Lobby", active := true, last_frame := none,
    last_update := none, added_date := 0, error_count := 0 }

/-- A manager holding one registered stream with an empty queue and no
live worker. -/
def mgrA : Manager :=
  { active_streams := [("Cam1", infoA)], frame_queues := [("Cam1", none)],
    stream_threads := [], running := false }

/-- A manager holding one registered stream whose worker is alive. -/
def mgrB : Manager :=
  { active_streams := [("Cam1", infoA)], frame_queues := [("Cam1", none)],
    stream_threads := [("Cam1", true)], running := true }

/-- The empty manager. -/
def mgrE : Manager :=
  { active_streams := [], frame_queues := [], stream_threads := [],
    running := false }

/-! ## Claims about the manager. -/

theorem monitorStep_preserves (cv : CVOps) (r : Bool) (name : String)
    (s : StreamInfo) (q : Option Frame) (rd : ReadResult) (t : Nat) :
    (monitorStep cv r name s q rd t).1.error_count = s.error_count ∧
    (monitorStep cv r name s q rd t).1.active = s.active ∧
    (monitorStep cv r name s q rd t).1.url = s.url := by
  cases rd <;> unfold monitorStep <;> split_ifs <;> simp

theorem monitorRun_preserves (cv : CVOps) (name : String)
    (trace : List (Bool × ReadResult × Nat)) (sq : StreamInfo × Option Frame) :
    (monitorRun cv name sq trace).1.error_count = sq.1.error_count ∧
    (monitorRun cv name sq trace).1.active = sq.1.active := by
  induction trace generalizing sq with
  | nil => exact ⟨rfl, rfl⟩
  | cons hd tl ih =>
    obtain ⟨r, rd, t⟩ := hd
    obtain ⟨s1, q1⟩ := sq
    have h1 := monitorStep_preserves cv r name s1 q1 rd t
    have h2 := ih (monitorStep cv r name s1 q1 rd t)
    exact ⟨h2.1.trans h1.1, h2.2.trans h1.2.1⟩

/-- C1 (counterexample): the monitor loop does none of what the claim says.
At a concrete running webcam stream with error counter `0`, a failed frame
read leaves the counter at `0` instead of incrementing it; and at a
concrete stream with counter `5`, a successful read leaves it at `5`
instead of resetting it to zero. -/
theorem C1_counterexample :
    (monitorStep cvA true "Cam1"
        { url := "0", location := "Lobby", active := true, last_frame := none,
          last_update := none, added_date := 0, error_count := 0 }
        none ReadResult.failure 5).1.error_count = 0 ∧
    ¬((monitorStep cvA true "Cam1"
        { url := "0", location := "Lobby", active := true, last_frame := none,
          last_update := none, added_date := 0, error_count := 0 }
        none ReadResult.failure 5).1.error_count = 0 + 1) ∧
    (monitorStep cvA true "Cam1"
        { url := "0", location := "Lobby", active := true, last_frame := none,
          last_update := none, added_date := 0, error_count := 5 }
        none (ReadResult.success 7) 9).1.error_count = 5 ∧
    ¬((monitorStep cvA true "Cam1"
        { url := "0", location := "Lobby", active := true, last_frame := none,
          last_update := none, added_date := 0, error_count := 5 }
        none (ReadResult.success 7) 9).1.error_count = 0) := by
  refine ⟨rfl, ?_, rfl, ?_⟩ <;> decide

/-- C1 (amended): the monitor loop maintains no error-handling state
machine at all.  No iteration ever changes the consecutive-error counter or
the `active` flag (so no `Reconnecting`/`Stopped` transition and no bound
on attempts exists), a failed webcam read leaves the stream entry and the
frame slot completely unchanged (the worker just sleeps and retries), and a
successful read — while overwriting the frame and timestamp — does not
reset the counter; this invariance persists over any trace of
iterations. -/
theorem C1_amended (cv : CVOps) (running : Bool) (name : String)
    (s : StreamInfo) (q : Option Frame) (read : ReadResult) (now : Nat) :
    ((monitorStep cv running name s q read now).1.error_count
      = s.error_count) ∧
    ((monitorStep cv running name s q read now).1.active = s.active) ∧
    (s.url = "0" → read = ReadResult.failure →
      monitorStep cv running name s q read now = (s, q)) ∧
    (∀ trace : List (Bool × ReadResult × Nat),
      ∀ sq : StreamInfo × Option Frame,
      (monitorRun cv name sq trace).1.error_count = sq.1.error_count ∧
      (monitorRun cv name sq trace).1.active = sq.1.active) := by
  refine ⟨(monitorStep_preserves cv running name s q read now).1,
    (monitorStep_preserves cv running name s q read now).2.1, ?_,
    monitorRun_preserves cv name⟩
  intro hurl hrd
  subst hrd
  unfold monitorStep
  split_ifs <;> simp_all

theorem C1_amended_witness :
    (monitorStep cvA true "Cam1" infoA none ReadResult.failure 3).1.error_count
      = infoA.error_count ∧
    monitorStep cvA true "Cam1" infoA none ReadResult.failure 3
      = (infoA, none) :=
  ⟨(C1_amended cvA true "Cam1" infoA none ReadResult.failure 3).1,
   (C1_amended cvA true "Cam1" infoA none ReadResult.failure 3).2.2.1 rfl rfl⟩

/-- C4: for a registered stream name, `start_stream_monitoring` is
idempotent — when a live worker is already recorded for the name it spawns
nothing (the state is returned untouched) and still reports success; when
none is live it reports success and records exactly one live worker for
the name, leaving every other name's worker entry unchanged. -/
theorem C4_start_monitoring_idempotent (m : Manager) (name : String)
    (hreg : (lookupA m.active_streams name).isSome) :
    (lookupA m.stream_threads name = some true →
      start_stream_monitoring m name = (true, m)) ∧
    (lookupA m.stream_threads name ≠ some true →
      (start_stream_monitoring m name).1 = true ∧
      (start_stream_monitoring m name).2.stream_threads
        = updateA m.stream_threads name true ∧
      lookupA (start_stream_monitoring m name).2.stream_threads name
        = some true ∧
      ∀ other, other ≠ name →
        lookupA (start_stream_monitoring m name).2.stream_threads other
          = lookupA m.stream_threads other) := by
  obtain ⟨v, hv⟩ := Option.isSome_iff_exists.1 hreg
  constructor
  · intro halive
    unfold start_stream_monitoring
    simp [hv, halive]
  · intro hnot
    have hsm1 : (start_stream_monitoring m name).1 = true := by
      unfold start_stream_monitoring
      simp [hv, hnot]
    have hsm2 : (start_stream_monitoring m name).2.stream_threads
        = updateA m.stream_threads name true := by
      unfold start_stream_monitoring
      simp [hv, hnot]
    refine ⟨hsm1, hsm2, ?_, ?_⟩
    · rw [hsm2]
      exact lookupA_updateA_self _ _ _
    · intro other hother
      rw [hsm2]
      exact lookupA_updateA_ne _ _ _ _ hother

theorem C4_start_monitoring_idempotent_witness :
    (lookupA mgrB.active_streams "Cam1").isSome = true ∧
    lookupA mgrB.stream_threads "Cam1" = some true ∧
    start_stream_monitoring mgrB "Cam1" = (true, mgrB) ∧
    (lookupA mgrA.active_streams "Cam1").isSome = true ∧
    lookupA mgrA.stream_threads "Cam1" ≠ some true ∧
    (start_stream_monitoring mgrA "Cam1").1 = true ∧
    lookupA (start_stream_monitoring mgrA "Cam1").2.stream_threads "Cam1"
      = some true :=
  ⟨by decide, by decide,
   (C4_start_monitoring_idempotent mgrB "Cam1" (by decide)).1 (by decide),
   by decide, by decide,
   ((C4_start_monitoring_idempotent mgrA "Cam1" (by decide)).2 (by decide)).1,
   ((C4_start_monitoring_idempotent mgrA "Cam1"
      (by decide)).2 (by decide)).2.2.1⟩

/-- C5: `add_stream` with an already-registered name returns failure
without probing and returns the state unchanged, so the existing stream's
entry, frame slot and worker record are untouched. -/
theorem C5_add_existing_fails_unchanged (probe : String → Bool) (now : Nat)
    (m : Manager) (name url location : String) (startMon : Bool)
    (hpresent : (lookupA m.active_streams name).isSome) :
    add_stream probe now m name url location startMon = ⟨false, false, m⟩ ∧
    lookupA (add_stream probe now m name url location startMon).state.active_streams
        name = lookupA m.active_streams name ∧
    lookupA (add_stream probe now m name url location startMon).state.frame_queues
        name = lookupA m.frame_queues name ∧
    lookupA (add_stream probe now m name url location startMon).state.stream_threads
        name = lookupA m.stream_threads name := by
  have h : add_stream probe now m name url location startMon
      = ⟨false, false, m⟩ := by
    unfold add_stream
    simp [hpresent]
  rw [h]
  exact ⟨rfl, rfl, rfl, rfl⟩

theorem C5_add_existing_fails_unchanged_witness :
    (lookupA mgrA.active_streams "Cam1").isSome = true ∧
    add_stream (fun _ => true) 4 mgrA "Cam1" "rtsp://x" "Hall" true
      = ⟨false, false, mgrA⟩ :=
  ⟨by decide,
   (C5_add_existing_fails_unchanged (fun _ => true) 4 mgrA "Cam1" "rtsp://x"
      "Hall" true (by decide)).1⟩

theorem lookupA_status_none (l : List (String × StreamInfo)) (name : String)
    (h : lookupA l name = none) :
    lookupA (l.map (fun p => (p.1, statusOf p.2))) name = none := by
  induction l with
  | nil => rfl
  | cons hd tl ih =>
    obtain ⟨k, v⟩ := hd
    by_cases hk : k = name
    · rw [lookupA, if_pos hk] at h
      exact absurd h (by simp)
    · rw [lookupA, if_neg hk] at h
      simpa [lookupA, hk] using ih h

/-- C6: for a fresh name whose URI is neither the local webcam `"0"` nor
the demo source, `add_stream` consults the connectivity probe, and when the
probe fails it returns `false` with the state unchanged — so no entry, no
frame queue and no worker are created, and the name is absent from a
subsequent `get_stream_status` snapshot. -/
theorem C6_probe_failure_rejects (probe : String → Bool) (now : Nat)
    (m : Manager) (name url location : String) (startMon : Bool)
    (hfresh : lookupA m.active_streams name = none)
    (hurl0 : url ≠ "0") (hurldemo : url ≠ "demo")
    (hprobe : probe url = false) :
    add_stream probe now m name url location startMon = ⟨false, true, m⟩ ∧
    lookupA (get_stream_status
        (add_stream probe now m name url location startMon).state) name
      = none := by
  have h : add_stream probe now m name url location startMon
      = ⟨false, true, m⟩ := by
    unfold add_stream
    simp [hfresh, hurl0, hurldemo, hprobe]
  refine ⟨h, ?_⟩
  rw [h]
  exact lookupA_status_none m.active_streams name hfresh

theorem C6_probe_failure_rejects_witness :
    lookupA mgrE.active_streams "Cam1" = none ∧
    ("rtsp://unreachable" : String) ≠ "0" ∧
    ("rtsp://unreachable" : String) ≠ "demo" ∧
    (fun (_ : String) => false) "rtsp://unreachable" = false ∧
    (add_stream (fun _ => false) 2 mgrE "Cam1" "rtsp://unreachable" "Lobby"
        true = ⟨false, true, mgrE⟩ ∧
      lookupA (get_stream_status (add_stream (fun _ => false) 2 mgrE "Cam1"
          "rtsp://unreachable" "Lobby" true).state) "Cam1" = none) :=
  ⟨rfl, by decide, by decide, rfl,
   C6_probe_failure_rejects (fun _ => false) 2 mgrE "Cam1"
     "rtsp://unreachable" "Lobby" true rfl (by decide) (by decide) rfl⟩

/-- C9: `get_current_frame` on a registered stream that has produced no
frame yet (empty or absent queue slot, no cached last frame) returns the
encoded bytes of the generated placeholder image rather than an error, so
the caller receives a renderable payload. -/
theorem C9_placeholder_on_empty (cv : CVOps) (now : Nat) (m : Manager)
    (name : String) (info : StreamInfo)
    (hreg : lookupA m.active_streams name = some info)
    (hq : lookupA m.frame_queues name = none ∨
      lookupA m.frame_queues name = some none)
    (hnf : info.last_frame = none) :
    (get_current_frame cv now m name).1
      = some (cv.encode (cv.placeholderImage now)).2 := by
  unfold get_current_frame
  rw [hreg]
  show (getFrameRegistered cv now m name info
      (lookupA m.frame_queues name)).1
    = some (cv.encode (cv.placeholderImage now)).2
  rcases hq with hq | hq <;> rw [hq] <;>
    · show (fallbackFrame cv now m info.last_frame).1
        = some (cv.encode (cv.placeholderImage now)).2
      rw [hnf]
      rfl

theorem C9_placeholder_on_empty_witness :
    lookupA mgrA.active_streams "Cam1" = some infoA ∧
    lookupA mgrA.frame_queues "Cam1" = some none ∧
    infoA.last_frame = none ∧
    (get_current_frame cvA 7 mgrA "Cam1").1
      = some (cvA.encode (cvA.placeholderImage 7)).2 :=
  ⟨by decide, by decide, rfl,
   C9_placeholder_on_empty cvA 7 mgrA "Cam1" infoA (by decide)
     (Or.inr (by decide)) rfl⟩

/-- C10: `get_current_frame` on a name that is not registered returns
`None` and the unchanged state — no placeholder is generated and nothing
is raised, so the caller of an unknown stream gets no payload. -/
theorem C10_unknown_stream_none (cv : CVOps) (now : Nat) (m : Manager)
    (name : String) (hunknown : lookupA m.active_streams name = none) :
    get_current_frame cv now m name = (none, m) := by
  unfold get_current_frame
  rw [hunknown]

theorem C10_unknown_stream_none_witness :
    lookupA mgrA.active_streams "NoSuchCam" = none ∧
    get_current_frame cvA 0 mgrA "NoSuchCam" = (none, mgrA) :=
  ⟨by decide, C10_unknown_stream_none cvA 0 mgrA "NoSuchCam" (by decide)⟩

/-! ## Detection pipeline (`routes/cctv_routes.py`, lines 156–239)

`process_frame_for_detection` loads the person registry, extracts all
faces from the current frame with the opaque detector, and for each
detected face iterates persons in registry order, comparing embeddings
until the first similarity strictly above the threshold; that person
yields one detection record and the person loop breaks.  `matchFace`
embeds the inner person loop (lines 182–217) and additionally returns the
ids of the persons for which `compare_embeddings` was invoked, so that
"which faces are ever compared" is observable. -/

/-- A face candidate produced by the opaque detector
(`insight_app.get`): embedding vector, detection score, bounding box. -/
structure Face where
  embedding : List ℚ
  det_score : ℚ
  bbox : List Int
deriving DecidableEq, Repr

/-- A person-registry record as read by the pipeline: only the `name` and
the optional `embedding` dict matter (entries lacking `embedding` are
skipped on line 184–185). -/
structure PersonInfo where
  name : String
  embedding : Option EmbeddingData
deriving DecidableEq, Repr

/-- A detection record as built on lines 195–202. -/
structure Detection where
  person_id : String
  person_name : String
  confidence : ℚ
  location : String
  bbox : List Int
  stream_name : String
deriving DecidableEq, Repr

/-- The person loop of `process_frame_for_detection` for one face
(lines 183–217): skip persons without an `embedding`; otherwise invoke
`compare_embeddings` against the face; on the first similarity strictly
above the threshold build one detection and `break`.  The second component
lists the person ids actually compared. -/
def matchFace (cosSim : List ℚ → List ℚ → Option ℚ) (threshold : ℚ)
    (sname : String) (face : Face) :
    List (String × PersonInfo) → Option Detection × List String
  | [] => (none, [])
  | (pid, pinfo) :: rest =>
    match pinfo.embedding with
    | none => matchFace cosSim threshold sname face rest
    | some temb =>
      let sim := (compare_embeddings cosSim (some temb)
        (some ⟨some (EmbVal.vec face.embedding)⟩)).1
      if sim > threshold then
        (some { person_id := pid, person_name := pinfo.name,
                confidence := sim, location := sname,
                bbox := face.bbox, stream_name := sname }, [pid])
      else
        ((matchFace cosSim threshold sname face rest).1,
         pid :: (matchFace cosSim threshold sname face rest).2)

/-- The person ids of the registry entries that carry an embedding, in
registry order — exactly the persons `matchFace` compares before it finds
a match. -/
def comparedIds (persons : List (String × PersonInfo)) : List String :=
  persons.filterMap (fun q => (q.2).embedding.map (fun _ => q.1))

/-- `process_frame_for_detection` from the frame onward (lines 164–235):
no frame → no detections; otherwise every face returned by the opaque
detector is run through the person loop, each contributing at most one
detection. -/
def process_frame_for_detection (cosSim : List ℚ → List ℚ → Option ℚ)
    (detect : Frame → List Face) (threshold : ℚ)
    (persons : List (String × PersonInfo)) (sname : String) :
    Option Frame → List Detection
  | none => []
  | some f => (detect f).filterMap
      (fun face => (matchFace cosSim threshold sname face persons).1)

/-- `extract_embeddings` (`face_matcher.py` lines 40–73) reduced to its
face-selection step: Python's `max(faces, key=lambda x: x.det_score)` —
the first face of maximal detection score.  This single-best-face policy
exists only here (registration-time extraction), not in the live
pipeline. -/
def bestFace : List Face → Option Face
  | [] => none
  | f :: rest => some (rest.foldl
      (fun b x => if b.det_score < x.det_score then x else b) f)

/-! ## Pipeline fixtures. -/

/-- A cosine oracle keyed on the reference vector: `[0] ↦ 0`,
`[1] ↦ 1`, anything else `↦ 2` (integer-valued to keep kernel evaluation
cheap; the pipeline theorems are generic in the oracle). -/
def cosW : List ℚ → List ℚ → Option ℚ :=
  fun a _ => if a = [0] then some 0
    else if a = [1] then some 1 else some 2

/-- A cosine oracle that always returns `1`. -/
def cosConst : List ℚ → List ℚ → Option ℚ := fun _ _ => some 1

/-- A high-scoring detected face. -/
def faceHigh : Face := { embedding := [5], det_score := 9,
                         bbox := [0, 0, 1, 1] }

/-- A low-scoring detected face visible in the same frame. -/
def faceLow : Face := { embedding := [6], det_score := 1,
                        bbox := [2, 2, 3, 3] }

/-- A detector seeing both faces in every frame. -/
def detectW : Frame → List Face := fun _ => [faceHigh, faceLow]

/-- Registry entry whose reference embedding matches nothing (`cosW` gives
it similarity 0). -/
def perBob : String × PersonInfo :=
  ("p0", { name := "Bob", embedding := some ⟨some (EmbVal.vec [0])⟩ })

/-- Registry entry with similarity 0.7 under `cosW`. -/
def perAlice : String × PersonInfo :=
  ("p1", { name := "Alice", embedding := some ⟨some (EmbVal.vec [1])⟩ })

/-- Registry entry with similarity 0.9 under `cosW` — strictly better than
Alice, but listed after her. -/
def perCarol : String × PersonInfo :=
  ("p2", { name := "Carol", embedding := some ⟨some (EmbVal.vec [2])⟩ })

/-! ## Claims about the pipeline. -/

/-- C7 (counterexample): the live pipeline does not restrict matching to
the single best face.  With two faces in the frame — `faceLow` scoring
strictly below `faceHigh` — the person loop still runs for `faceLow`
(person `"p1"` is compared against it), and the run emits two detections,
one per face, where a best-face-only pipeline could emit at most one. -/
theorem C7_counterexample :
    faceLow.det_score < faceHigh.det_score ∧
    (matchFace cosConst 0 "cam" faceLow [perAlice]).2 = ["p1"] ∧
    (process_frame_for_detection cosConst detectW 0 [perAlice] "cam"
        (some 0)).length = 2 := by
  decide

theorem matchFace_compares (cosSim : List ℚ → List ℚ → Option ℚ)
    (th : ℚ) (sname : String) (face : Face) :
    ∀ persons : List (String × PersonInfo),
    (∃ p ∈ persons, ((p.2).embedding).isSome) →
    (matchFace cosSim th sname face persons).2 ≠ [] := by
  intro persons
  induction persons with
  | nil =>
    rintro ⟨p, hp, _⟩
    cases hp
  | cons hd tl ih =>
    rintro ⟨p, hp, hpe⟩
    obtain ⟨pid, pinfo⟩ := hd
    rcases hqe : pinfo.embedding with _ | temb
    · have hptl : p ∈ tl := by
        rcases List.mem_cons.1 hp with heq | htl
        · subst heq
          simp [hqe] at hpe
        · exact htl
      have h := ih ⟨p, hptl, hpe⟩
      simpa [matchFace, hqe] using h
    · by_cases hs : (compare_embeddings cosSim (some temb)
          (some ⟨some (EmbVal.vec face.embedding)⟩)).1 > th
      · simp [matchFace, hqe, hs]
      · simp [matchFace, hqe, hs]

/-- C7 (amended): the pipeline compares every face detected in the frame
against the registry — whenever some registered person carries an
embedding, the person loop invokes at least one comparison for each
detected face, regardless of its detection score — and each face
contributes at most one detection (so the run emits at most one detection
per detected face).  The single-best-face policy exists only in
`extract_embeddings` (registration-time extraction), embodied by
`bestFace`. -/
theorem C7_amended (cosSim : List ℚ → List ℚ → Option ℚ)
    (detect : Frame → List Face) (threshold : ℚ)
    (persons : List (String × PersonInfo)) (sname : String) (f : Frame)
    (face : Face) (_hface : face ∈ detect f)
    (hemb : ∃ p ∈ persons, ((p.2).embedding).isSome) :
    (matchFace cosSim threshold sname face persons).2 ≠ [] ∧
    (process_frame_for_detection cosSim detect threshold persons sname
        (some f)).length ≤ (detect f).length := by
  refine ⟨matchFace_compares cosSim threshold sname face persons hemb, ?_⟩
  exact List.length_filterMap_le _ _

theorem C7_amended_witness :
    faceLow ∈ detectW 0 ∧
    (∃ p ∈ [perAlice], ((p.2).embedding).isSome) ∧
    ((matchFace cosConst 0 "cam" faceLow [perAlice]).2 ≠ [] ∧
      (process_frame_for_detection cosConst detectW 0 [perAlice] "cam"
          (some 0)).length ≤ (detectW 0).length) :=
  ⟨by decide, by decide,
   C7_amended cosConst detectW 0 [perAlice] "cam" 0 faceLow
     (by decide) (by decide)⟩

/-- C8: the person loop iterates the registry in order and the first
person whose stored embedding yields similarity strictly above the
threshold wins — the loop emits exactly one detection, for that person,
and stops: the result is independent of every later registry entry, even
one of strictly higher similarity. -/
theorem C8_first_match_wins (cosSim : List ℚ → List ℚ → Option ℚ)
    (threshold : ℚ) (sname : String) (face : Face)
    (pre post : List (String × PersonInfo)) (pid : String)
    (pinfo : PersonInfo) (temb : EmbeddingData)
    (hpre : ∀ q ∈ pre, ∀ e, (q.2).embedding = some e →
      ¬((compare_embeddings cosSim (some e)
          (some ⟨some (EmbVal.vec face.embedding)⟩)).1 > threshold))
    (hemb : pinfo.embedding = some temb)
    (hsim : (compare_embeddings cosSim (some temb)
        (some ⟨some (EmbVal.vec face.embedding)⟩)).1 > threshold) :
    matchFace cosSim threshold sname face (pre ++ (pid, pinfo) :: post)
      = (some { person_id := pid, person_name := pinfo.name,
                confidence := (compare_embeddings cosSim (some temb)
                  (some ⟨some (EmbVal.vec face.embedding)⟩)).1,
                location := sname, bbox := face.bbox,
                stream_name := sname },
        comparedIds pre ++ [pid]) := by
  induction pre with
  | nil =>
    simp [matchFace, hemb, hsim, comparedIds]
  | cons q qre ih =>
    obtain ⟨qid, qinfo⟩ := q
    have ih2 := ih (fun r hr e he => hpre r (List.mem_cons_of_mem _ hr) e he)
    rcases hqe : qinfo.embedding with _ | e
    · have hstep : matchFace cosSim threshold sname face
          (((qid, qinfo) :: qre) ++ (pid, pinfo) :: post)
          = matchFace cosSim threshold sname face
            (qre ++ (pid, pinfo) :: post) := by
        simp [matchFace, hqe]
      rw [hstep, ih2]
      simp [comparedIds, hqe]
    · have hle := hpre (qid, qinfo) (List.mem_cons_self _ _) e hqe
      have hstep : matchFace cosSim threshold sname face
          (((qid, qinfo) :: qre) ++ (pid, pinfo) :: post)
          = ((matchFace cosSim threshold sname face
              (qre ++ (pid, pinfo) :: post)).1,
             qid :: (matchFace cosSim threshold sname face
              (qre ++ (pid, pinfo) :: post)).2) := by
        simp [matchFace, hqe, hle]
      rw [hstep, ih2]
      simp [comparedIds, hqe]

theorem C8_first_match_wins_witness :
    matchFace cosW 0 "cam" faceHigh ([perBob] ++ perAlice :: [perCarol])
      = (some { person_id := "p1", person_name := "Alice",
                confidence := (compare_embeddings cosW
                  (some ⟨some (EmbVal.vec [1])⟩)
                  (some ⟨some (EmbVal.vec faceHigh.embedding)⟩)).1,
                location := "cam", bbox := faceHigh.bbox,
                stream_name := "cam" },
        comparedIds [perBob] ++ ["p1"]) := by
  have hpre : ∀ q ∈ [perBob], ∀ e, (q.2).embedding = some e →
      ¬((compare_embeddings cosW (some e)
          (some ⟨some (EmbVal.vec faceHigh.embedding)⟩)).1 > 0) := by
    intro q hq e he
    have hq2 : q = perBob := List.mem_singleton.1 hq
    subst hq2
    have he2 : (⟨some (EmbVal.vec [0])⟩ : EmbeddingData) = e :=
      Option.some.inj he
    subst he2
    decide
  exact C8_first_match_wins cosW 0 "cam" faceHigh [perBob] [perCarol]
    "p1" { name := "Alice", embedding := some ⟨some (EmbVal.vec [1])⟩ }
    ⟨some (EmbVal.vec [1])⟩ hpre rfl (by decide)

end MissingPerson
